import Mathlib

/-!
Shallow embedding of the `gas-bridger` repository (Python) in Lean 4.

Files embedded:
- `src/gas_bridger/constants.py` — the `Network` chain IDs and the `LZ_EID` table.
- `src/gas_bridger/relayer_config.py` — `ChainMarketManager.load_config` /
  `update_config`, the JSON deployments store.
- `src/deploy/deploy.py` — `lz_endpoints`, the salt derivation, `deploy` and
  `set_peer`.

Modelling choices:
- Python `dict` objects are association lists (`List (κ × α)`); `d[k]` is
  `dictLookup`, raising `KeyError` becomes returning `none`, and
  `d[k] = v` is `dictSet`, which overwrites in place or appends at the end,
  exactly as CPython insertion order behaves.
- Python dict keys may be `int` or `str` (both occur in this code base:
  YAML round-trips integer keys, JSON does not), so dicts held by the JSON
  config store use the key type `PyKey`.
- The file system is a `FileState` record holding the contents of the two
  mapping files (`deploy/deployments.yaml` and `gas_bridger/deployments.json`)
  as `Option` values; `none` means the file does not exist.
- `json.dump` converts every integer dict key to its decimal string
  (CPython `json` semantics); `json.loads` returns all object keys as
  strings. `yaml.safe_dump`/`yaml.safe_load` round-trip integer keys, so the
  YAML file content is kept as a `List (Int × String)` directly.
- External effects (the RPC connection, the CreateX factory call, the ABI
  file write) are out of the embedded claims' scope: the deployed address is
  a parameter of `deploy`, and the random salt bytes are a parameter of
  `mkSalt`.
- A Python exception aborting the run is an `Except`/`Option` error value;
  the spec's error taxonomy names `KeyError` on a registry table
  `UnsupportedChain` and `KeyError` on the deployments mapping `NotDeployed`.
-/

namespace GasBridger

/-- Lookup in a Python dict modelled as an association list:
`d[k]`, returning `none` where Python raises `KeyError`. -/
def dictLookup {κ α : Type} [DecidableEq κ] : List (κ × α) → κ → Option α
  | [], _ => none
  | (k, v) :: rest, q => if k = q then some v else dictLookup rest q

/-- Python dict item assignment `d[k] = v`: overwrites the first (unique)
binding of `k` in place, or appends a new binding at the end. -/
def dictSet {κ α : Type} [DecidableEq κ] : List (κ × α) → κ → α → List (κ × α)
  | [], k, v => [(k, v)]
  | (k', v') :: rest, k, v =>
      if k' = k then (k, v) :: rest else (k', v') :: dictSet rest k v

/-- A Python dict key as it occurs in this code base: an `int` or a `str`. -/
inductive PyKey : Type where
  | int : Int → PyKey
  | str : String → PyKey
deriving DecidableEq

/-- A Python dict of chain keys to address strings, as held in memory
by the JSON config store (`relayer_config.py`). -/
abbrev PyDict : Type := List (PyKey × String)

/-- The error taxonomy of the spec, raised as Python exceptions by the code:
`KeyError` on `lz_endpoints`/`LZ_EID` is `UnsupportedChain`, `KeyError` on the
deployments mapping is `NotDeployed`. -/
inductive DeployError : Type where
  | UnsupportedChain : DeployError
  | NotDeployed : DeployError
deriving DecidableEq

/-! ### `src/gas_bridger/constants.py` -/

/-- `Network.ArbitrumSepolia = 421614` (constants.py line 62). -/
def Network.ArbitrumSepolia : Int := 421614

/-- `Network.Sepolia = 11155111` (constants.py line 64). -/
def Network.Sepolia : Int := 11155111

/-- `LZ_EID: dict[int, int]` (constants.py lines 70-73). -/
def LZ_EID : List (Int × Int) :=
  [(Network.ArbitrumSepolia, 1), (Network.Sepolia, 1)]

/-! ### `src/deploy/deploy.py` constants -/

/-- `lz_endpoints` (deploy.py lines 20-23). -/
def lz_endpoints : List (Int × String) :=
  [(421614, "0x6EDCE65403992e310A62460808c4b910D972f10f"),
   (11155111, "0x6EDCE65403992e310A62460808c4b910D972f10f")]

/-- The home chain ID hard-coded in `deploy` (line 61) and `set_peer`
(line 76): Sepolia, `11155111`. -/
def HOME_CHAIN_ID : Int := 11155111

/-- The endpoint ID literal passed to `contract.set_peer` (deploy.py
line 76). -/
def SET_PEER_EID : Int := 4294967294

/-! ### Registry lookups (spec §4.1), as realised by the code's dict
accesses `lz_endpoints[chain_id]` (deploy.py line 40) and
`LZ_EID[chain_id]`: a `KeyError` is `UnsupportedChain`. -/

/-- `messaging_endpoint_for(chain_id)`: `lz_endpoints[chain_id]`. -/
def messaging_endpoint_for (chain_id : Int) : Except DeployError String :=
  match dictLookup lz_endpoints chain_id with
  | none => .error .UnsupportedChain
  | some v => .ok v

/-- `messaging_eid_for(chain_id)`: `LZ_EID[chain_id]`. -/
def messaging_eid_for (chain_id : Int) : Except DeployError Int :=
  match dictLookup LZ_EID chain_id with
  | none => .error .UnsupportedChain
  | some v => .ok v

/-! ### File system state -/

/-- Contents of the two on-disk mapping files. `none` = file absent.
The YAML file keeps integer keys (`yaml.safe_dump` round-trips them);
the JSON file's object keys are strings (`json` object keys always are). -/
structure FileState : Type where
  yamlFile : Option (List (Int × String))
  jsonFile : Option (List (String × String))
deriving DecidableEq

/-! ### `src/gas_bridger/relayer_config.py` — `ChainMarketManager` -/

/-- How CPython `json.dump` renders a dict key: an `int` key becomes its
decimal string, a `str` key is kept. -/
def jsonKeyRepr : PyKey → String
  | .int n => toString n
  | .str s => s

/-- The JSON object written by `json.dump(json_config, f)`: every key
rendered by `jsonKeyRepr`. -/
def jsonDumpKeys (m : PyDict) : List (String × String) :=
  m.map (fun p => (jsonKeyRepr p.1, p.2))

/-- `ChainMarketManager.load_config` (relayer_config.py lines 12-20):
returns Python `None` if `deployments.json` does not exist, otherwise
`json.loads` of its contents — whose object keys are all strings. -/
def load_config (s : FileState) : Option PyDict :=
  match s.jsonFile with
  | none => none
  | some obj => some (obj.map (fun p => (PyKey.str p.1, p.2)))

/-- `ChainMarketManager.update_config` (relayer_config.py lines 22-26):
opens `deployments.json` for writing (truncating) and `json.dump`s the
mapping. Only the JSON file is touched. -/
def update_config (s : FileState) (json_config : PyDict) : FileState :=
  { s with jsonFile := some (jsonDumpKeys json_config) }

/-! ### `src/deploy/deploy.py` — salt derivation -/

/-- The flag byte appended to the deployer address in the salt:
`bytes.fromhex(boa.env.eoa[2:] + "00")` ends in the byte `0x00`
(deploy.py line 31). -/
def SALT_FLAG_BYTE : Nat := 0

/-- Salt derivation (deploy.py lines 31-33):
`guard_bytes = bytes.fromhex(boa.env.eoa[2:] + "00")` decodes the 40 hex
characters of the deployer address to its 20 bytes followed by the flag
byte `0x00`; `salt_view = guard_bytes + os.urandom(11)`. Here
`deployerAddr` are the 20 decoded address bytes and `rand` the 11 random
bytes drawn by `os.urandom`. -/
def mkSalt (deployerAddr : List Nat) (rand : List Nat) : List Nat :=
  deployerAddr ++ [SALT_FLAG_BYTE] ++ rand

/-! ### `src/deploy/deploy.py` — `set_peer` and `deploy` -/

/-- One `contract.set_peer(eid, peer)` invocation sent to the deployed
contract. -/
structure PeerCall : Type where
  eid : Int
  peer : String
deriving DecidableEq

/-- `deployments = {}` then `if yaml_file_path.exists(): deployments =
yaml.safe_load(file)` (deploy.py lines 51-54 and 70-73). -/
def readDeployments (yamlFile : Option (List (Int × String))) :
    List (Int × String) :=
  yamlFile.getD []

/-- `set_peer` (deploy.py lines 65-76), given the YAML file contents and
the connected chain's ID. Python evaluates `deployments[chain_id]` first
(line 75) and `deployments[11155111]` second, as an argument, before the
`set_peer` call leaves the process (line 76); a `KeyError` on either —
`NotDeployed` — therefore aborts before any peer-registration call is
sent. On success the returned trace holds the single call made. -/
def set_peer (yamlFile : Option (List (Int × String))) (chain_id : Int) :
    Except DeployError (List PeerCall) :=
  let deployments := readDeployments yamlFile
  match dictLookup deployments chain_id with
  | none => .error .NotDeployed
  | some _selfAddr =>
    match dictLookup deployments HOME_CHAIN_ID with
    | none => .error .NotDeployed
    | some homeAddr => .ok [⟨SET_PEER_EID, homeAddr⟩]

/-- Outcome of a `deploy` run: the file system as left behind (the YAML
write at lines 58-59 happens before `set_peer` can raise), whether the
`set_peer()` step was entered (line 62), and the error or the trace of
peer-registration calls. -/
structure DeployOutcome : Type where
  finalState : FileState
  setPeerRan : Bool
  result : Except DeployError (List PeerCall)

/-- `deploy` (deploy.py lines 26-62), given the starting file state, the
connected chain's ID and the address returned by the external
`deployCreate3` call. `lz_endpoints[chain_id]` (line 40) raises
`UnsupportedChain` before any file is written; otherwise the YAML
deployments mapping gets `deployments[chain_id] = str(address)` and is
written back (lines 51-59), and `set_peer()` runs iff
`chain_id != 11155111` (lines 61-62), re-reading the just-written file. -/
def deploy (s : FileState) (chain_id : Int) (address : String) :
    DeployOutcome :=
  match dictLookup lz_endpoints chain_id with
  | none => ⟨s, false, .error .UnsupportedChain⟩
  | some _endpoint =>
    let deployments := readDeployments s.yamlFile
    let deployments' := dictSet deployments chain_id address
    let s' : FileState := { s with yamlFile := some deployments' }
    if chain_id ≠ HOME_CHAIN_ID then
      ⟨s', true, set_peer s'.yamlFile chain_id⟩
    else
      ⟨s', false, .ok []⟩

/-! ## Helper lemmas -/

theorem dictLookup_dictSet_self {κ α : Type} [DecidableEq κ]
    (m : List (κ × α)) (k : κ) (v : α) :
    dictLookup (dictSet m k v) k = some v := by
  induction m with
  | nil => simp [dictSet, dictLookup]
  | cons p rest ih =>
    obtain ⟨k', v'⟩ := p
    by_cases h : k' = k
    · subst h
      simp [dictSet, dictLookup]
    · simp [dictSet, dictLookup, h, ih]

theorem dictLookup_dictSet_ne {κ α : Type} [DecidableEq κ]
    (m : List (κ × α)) (k d : κ) (v : α) (hd : d ≠ k) :
    dictLookup (dictSet m k v) d = dictLookup m d := by
  induction m with
  | nil => simp [dictSet, dictLookup, Ne.symm hd]
  | cons p rest ih =>
    obtain ⟨k', v'⟩ := p
    by_cases h : k' = k
    · subst h
      simp [dictSet, dictLookup, Ne.symm hd]
    · simp only [dictSet, dictLookup, if_neg h]
      by_cases h2 : k' = d <;> simp [h2, ih]

theorem readDeployments_some (l : List (Int × String)) :
    readDeployments (some l) = l := rfl

/-- On a configured chain, `deploy` leaves the YAML file holding the old
mapping with the entry for the deployed chain set. -/
theorem deploy_finalState_yaml (s : FileState) (chain_id : Int)
    (address : String) (e : String)
    (he : dictLookup lz_endpoints chain_id = some e) :
    (deploy s chain_id address).finalState.yamlFile =
      some (dictSet (readDeployments s.yamlFile) chain_id address) := by
  unfold deploy
  rw [he]
  by_cases h : chain_id = HOME_CHAIN_ID <;> simp [h]

/-- `deploy` on a configured non-home chain: enters `set_peer` on the
just-written file, whose outcome is the run's result. -/
theorem deploy_nonhome_fields (s : FileState) (chain_id : Int)
    (address : String) (e : String)
    (he : dictLookup lz_endpoints chain_id = some e)
    (hne : chain_id ≠ HOME_CHAIN_ID) :
    (deploy s chain_id address).setPeerRan = true ∧
    (deploy s chain_id address).result =
      set_peer (some (dictSet (readDeployments s.yamlFile) chain_id address))
        chain_id := by
  unfold deploy
  rw [he]
  simp [hne]

/-- `deploy` on the home chain: never enters `set_peer`, makes no
peer-registration call. -/
theorem deploy_home_fields (s : FileState) (address : String) :
    (deploy s HOME_CHAIN_ID address).setPeerRan = false ∧
    (deploy s HOME_CHAIN_ID address).result = .ok [] := by
  unfold deploy
  exact ⟨rfl, rfl⟩

/-- A successful `set_peer`, spelled out from its two lookups. -/
theorem set_peer_ok (yamlFile : Option (List (Int × String)))
    (chain_id : Int) (selfAddr homeAddr : String)
    (hself : dictLookup (readDeployments yamlFile) chain_id = some selfAddr)
    (hhome : dictLookup (readDeployments yamlFile) HOME_CHAIN_ID = some homeAddr) :
    set_peer yamlFile chain_id = .ok [⟨SET_PEER_EID, homeAddr⟩] := by
  unfold set_peer
  simp only [hself, hhome]

/-! ## Claims -/

/-- Claim C1, as stated, is false: `update_config` goes through `json.dump`,
which renders integer dict keys as decimal strings, so `load_config` after
`update_config` of the integer-keyed mapping `{11155111: "0xBB"}` returns
the string-keyed `{"11155111": "0xBB"}`, not the saved mapping. -/
theorem save_load_roundtrip_C1_cex :
    load_config (update_config ⟨none, none⟩ [(PyKey.int 11155111, "0xBB")]) ≠
      some [(PyKey.int 11155111, "0xBB")] := by
  simp [load_config, update_config, jsonDumpKeys, jsonKeyRepr]

/-- Claim C1, amended: `save(m)` followed by `load()` returns the mapping
whose entries are those of `m` with every key rendered as its JSON string
form (an integer chain ID becomes its decimal string); in particular the
empty mapping round-trips to itself, but a nonempty integer-keyed mapping
does not. -/
theorem save_load_roundtrip_C1 (s : FileState) (m : PyDict) :
    load_config (update_config s m) =
      some (m.map (fun p => (PyKey.str (jsonKeyRepr p.1), p.2))) := by
  simp [load_config, update_config, jsonDumpKeys, List.map_map]

/-- Claim C2, as stated, is false: on a missing `deployments.json`,
`load_config` returns Python `None` (modelled `none`), not an empty
mapping. -/
theorem load_missing_C2_cex :
    load_config ⟨none, none⟩ ≠ some ([] : PyDict) := by
  simp [load_config]

/-- Claim C2, amended: if no persisted mapping file exists, `load_config`
does not fail — it returns the value `None` (no mapping), rather than an
empty mapping. -/
theorem load_missing_C2 (s : FileState) (h : s.jsonFile = none) :
    load_config s = none := by
  simp [load_config, h]

/-- Witness for C2: a file state with no `deployments.json`. -/
theorem load_missing_C2_witness :
    load_config ⟨none, none⟩ = none :=
  load_missing_C2 ⟨none, none⟩ rfl

/-- Claim C3, as stated, is false: saving `{11155111: "0xBB"}` through
`update_config` on an empty file system writes the JSON file but leaves the
YAML file nonexistent — the mapping does not end up in both
representations. -/
theorem save_both_files_C3_cex :
    (update_config ⟨none, none⟩ [(PyKey.int 11155111, "0xBB")]).yamlFile
        = none ∧
    (update_config ⟨none, none⟩ [(PyKey.int 11155111, "0xBB")]).jsonFile
        = some [("11155111", "0xBB")] := by
  constructor
  · rfl
  · rfl

/-- Claim C3, amended: `update_config` writes the given mapping to the JSON
representation only, and leaves the YAML file exactly as it was; the YAML
representation is written only by the `deploy` workflow (which, conversely,
never writes the JSON file). -/
theorem save_both_files_C3 (s : FileState) (m : PyDict) :
    (update_config s m).jsonFile = some (jsonDumpKeys m) ∧
    (update_config s m).yamlFile = s.yamlFile ∧
    ∀ (chain_id : Int) (address : String),
      (deploy s chain_id address).finalState.jsonFile = s.jsonFile := by
  refine ⟨rfl, rfl, fun chain_id address => ?_⟩
  unfold deploy
  cases h : dictLookup lz_endpoints chain_id with
  | none => rfl
  | some e =>
    by_cases hc : chain_id = HOME_CHAIN_ID <;> simp [hc]

/-- Claim C4, as stated, is false: the registry's endpoint identifier for
the home chain is `LZ_EID[11155111] = 1`, but the peer-registration call
issued by `set_peer` supplies the hard-coded endpoint ID `4294967294`. -/
theorem register_peer_eid_C4_cex :
    messaging_eid_for 11155111 = .ok 1 ∧
    set_peer (some [(421614, "0xAA"), (11155111, "0xBB")]) 421614 =
      .ok [⟨4294967294, "0xBB"⟩] ∧
    (4294967294 : Int) ≠ 1 := by
  refine ⟨rfl, rfl, by decide⟩

/-- Claim C4, amended: `messaging_eid_for` returns the `LZ_EID` table value
(`1` for the home chain), but every peer-registration call made by
`set_peer` supplies the fixed endpoint ID `4294967294`, which is not the
registry's value for the home chain — `LZ_EID` is not consulted by
`set_peer`. -/
theorem register_peer_eid_C4 (yamlFile : Option (List (Int × String)))
    (chain_id : Int) (calls : List PeerCall)
    (h : set_peer yamlFile chain_id = .ok calls) :
    calls.map PeerCall.eid = [(4294967294 : Int)] ∧
    messaging_eid_for HOME_CHAIN_ID = .ok 1 ∧
    (4294967294 : Int) ≠ 1 := by
  refine ⟨?_, rfl, by decide⟩
  unfold set_peer at h
  dsimp only at h
  split at h
  · exact absurd h (by simp)
  · split at h
    · exact absurd h (by simp)
    · simp only [Except.ok.injEq] at h
      rw [← h]
      rfl

/-- Witness for C4: a file holding both addresses, deployed chain 421614. -/
theorem register_peer_eid_C4_witness :
    ([⟨SET_PEER_EID, "0xFF"⟩] : List PeerCall).map PeerCall.eid
        = [(4294967294 : Int)] ∧
    messaging_eid_for HOME_CHAIN_ID = .ok 1 ∧
    (4294967294 : Int) ≠ 1 :=
  register_peer_eid_C4 (some [(421614, "0xEE"), (11155111, "0xFF")]) 421614
    [⟨SET_PEER_EID, "0xFF"⟩] rfl

/-- Claim C5: `deploy` to the home chain ID 11155111 never enters the
RegisterPeer step, and `deploy` to any other configured chain ID always
enters it (deploy.py lines 61-62), whatever the file state. -/
theorem deploy_home_gate_C5 (s : FileState) (address : String)
    (chain_id : Int) (hc : (dictLookup lz_endpoints chain_id).isSome)
    (hne : chain_id ≠ 11155111) :
    (deploy s 11155111 address).setPeerRan = false ∧
    (deploy s chain_id address).setPeerRan = true := by
  obtain ⟨e, he⟩ := Option.isSome_iff_exists.mp hc
  exact ⟨(deploy_home_fields s address).1,
    (deploy_nonhome_fields s chain_id address e he hne).1⟩

/-- Witness for C5: deploying to 421614 on an empty file system. -/
theorem deploy_home_gate_C5_witness :
    (deploy ⟨none, none⟩ 11155111 "0xAA").setPeerRan = false ∧
    (deploy ⟨none, none⟩ 421614 "0xAA").setPeerRan = true :=
  deploy_home_gate_C5 ⟨none, none⟩ "0xAA" 421614 (by decide) (by decide)

/-- Claim C6: `set_peer` on a chain whose persisted YAML mapping lacks an
address for the home chain (or for the target chain itself) fails with
`NotDeployed`; no peer-registration call appears, since the `KeyError` is
raised while evaluating the lookups, before the call is sent. -/
theorem set_peer_not_deployed_C6
    (yamlFile : Option (List (Int × String))) (chain_id : Int)
    (h : dictLookup (readDeployments yamlFile) chain_id = none ∨
         dictLookup (readDeployments yamlFile) HOME_CHAIN_ID = none) :
    set_peer yamlFile chain_id = .error .NotDeployed := by
  unfold set_peer
  dsimp only
  rcases h with h | h
  · simp [h]
  · rw [h]
    split <;> rfl

/-- Witness for C6: no YAML file at all, so neither address is recorded. -/
theorem set_peer_not_deployed_C6_witness :
    set_peer none 421614 = .error .NotDeployed :=
  set_peer_not_deployed_C6 none 421614 (Or.inl rfl)

/-- Claim C7: the deployment salt is exactly 32 bytes — the deployer's 20
address bytes, then the fixed flag byte `0x00`, then the 11 random bytes —
and two salts for the same deployer built from distinct random draws are
distinct. -/
theorem salt_layout_C7 (deployerAddr rand : List Nat)
    (ha : deployerAddr.length = 20) (hr : rand.length = 11) :
    (mkSalt deployerAddr rand).length = 32 ∧
    mkSalt deployerAddr rand = deployerAddr ++ [SALT_FLAG_BYTE] ++ rand ∧
    ∀ rand2 : List Nat, rand2 ≠ rand →
      mkSalt deployerAddr rand2 ≠ mkSalt deployerAddr rand := by
  refine ⟨?_, rfl, fun rand2 hne heq => hne ?_⟩
  · simp [mkSalt, ha, hr]
  · exact List.append_cancel_left heq

/-- Witness for C7: a concrete 20-byte address and two distinct 11-byte
random draws. -/
theorem salt_layout_C7_witness :
    (mkSalt (List.replicate 20 7) (List.replicate 11 3)).length = 32 ∧
    mkSalt (List.replicate 20 7) (3 :: List.replicate 10 5) ≠
      mkSalt (List.replicate 20 7) (List.replicate 11 3) := by
  have h := salt_layout_C7 (List.replicate 20 7) (List.replicate 11 3)
    (by decide) (by decide)
  exact ⟨h.1, h.2.2 (3 :: List.replicate 10 5) (by decide)⟩

/-- Claim C8: whenever the RegisterPeer step runs with both addresses
recorded — directly via `set_peer`, or via `deploy` on a configured
non-home chain — exactly one peer-registration call is made, carrying the
home chain's endpoint ID 4294967294 and the home chain's address read back
from the persisted YAML mapping. -/
theorem register_peer_call_C8 (yamlFile : Option (List (Int × String)))
    (chain_id : Int) (selfAddr homeAddr : String)
    (hself : dictLookup (readDeployments yamlFile) chain_id = some selfAddr)
    (hhome : dictLookup (readDeployments yamlFile) HOME_CHAIN_ID
        = some homeAddr) :
    set_peer yamlFile chain_id = .ok [⟨(4294967294 : Int), homeAddr⟩] ∧
    ∀ (s : FileState) (address e : String), s.yamlFile = yamlFile →
      dictLookup lz_endpoints chain_id = some e → chain_id ≠ 11155111 →
      (deploy s chain_id address).result
        = .ok [⟨(4294967294 : Int), homeAddr⟩] := by
  constructor
  · exact set_peer_ok yamlFile chain_id selfAddr homeAddr hself hhome
  · intro s address e hs he hne
    rw [(deploy_nonhome_fields s chain_id address e he hne).2, hs]
    refine set_peer_ok _ chain_id address homeAddr ?_ ?_
    · exact dictLookup_dictSet_self (readDeployments yamlFile) chain_id address
    · rw [readDeployments_some, dictLookup_dictSet_ne (readDeployments yamlFile)
        chain_id HOME_CHAIN_ID address (Ne.symm hne)]
      exact hhome

/-- Witness for C8: both addresses recorded, RegisterPeer run both ways on
chain 421614. -/
theorem register_peer_call_C8_witness :
    set_peer (some [(421614, "0xCC"), (11155111, "0xDD")]) 421614
        = .ok [⟨(4294967294 : Int), "0xDD"⟩] ∧
    (deploy ⟨some [(421614, "0xCC"), (11155111, "0xDD")], none⟩ 421614
        "0xC2").result = .ok [⟨(4294967294 : Int), "0xDD"⟩] := by
  have h := register_peer_call_C8
    (some [(421614, "0xCC"), (11155111, "0xDD")]) 421614 "0xCC" "0xDD"
    rfl rfl
  exact ⟨h.1, h.2 ⟨some [(421614, "0xCC"), (11155111, "0xDD")], none⟩ "0xC2"
    "0x6EDCE65403992e310A62460808c4b910D972f10f" rfl rfl (by decide)⟩

/-- Claim C9: for both supported chain IDs (421614 and 11155111),
`messaging_endpoint_for` and `messaging_eid_for` return defined values; for
every other chain ID, both fail with `UnsupportedChain`. -/
theorem registry_lookup_C9 (chain_id : Int) :
    ((chain_id = 421614 ∨ chain_id = 11155111) →
      messaging_endpoint_for chain_id
          = .ok "0x6EDCE65403992e310A62460808c4b910D972f10f" ∧
      messaging_eid_for chain_id = .ok 1) ∧
    (chain_id ≠ 421614 → chain_id ≠ 11155111 →
      messaging_endpoint_for chain_id = .error .UnsupportedChain ∧
      messaging_eid_for chain_id = .error .UnsupportedChain) := by
  constructor
  · rintro (rfl | rfl)
    · exact ⟨rfl, rfl⟩
    · exact ⟨rfl, rfl⟩
  · intro h1 h2
    constructor
    · simp [messaging_endpoint_for, lz_endpoints, dictLookup,
        Ne.symm h1, Ne.symm h2]
    · simp [messaging_eid_for, LZ_EID, Network.ArbitrumSepolia,
        Network.Sepolia, dictLookup, Ne.symm h1, Ne.symm h2]

/-- Witness for C9: the supported chain 421614 and the unsupported chain 5. -/
theorem registry_lookup_C9_witness :
    (messaging_endpoint_for 421614
        = .ok "0x6EDCE65403992e310A62460808c4b910D972f10f" ∧
      messaging_eid_for 421614 = .ok 1) ∧
    (messaging_endpoint_for 5 = .error .UnsupportedChain ∧
      messaging_eid_for 5 = .error .UnsupportedChain) :=
  ⟨(registry_lookup_C9 421614).1 (Or.inl rfl),
    (registry_lookup_C9 5).2 (by decide) (by decide)⟩

/-- Claim C10: a `deploy` run on a configured chain only adds or overwrites
that chain's entry of the YAML deployments mapping — after the run, the
recorded entry of every other chain ID reads unchanged, and the deployed
chain's entry reads the new address. -/
theorem deploy_frame_C10 (s : FileState) (chain_id : Int) (address : String)
    (e : String) (he : dictLookup lz_endpoints chain_id = some e) :
    (∀ d : Int, d ≠ chain_id →
      dictLookup
          (readDeployments (deploy s chain_id address).finalState.yamlFile) d
        = dictLookup (readDeployments s.yamlFile) d) ∧
    dictLookup
        (readDeployments (deploy s chain_id address).finalState.yamlFile)
        chain_id = some address := by
  rw [deploy_finalState_yaml s chain_id address e he, readDeployments_some]
  constructor
  · intro d hd
    exact dictLookup_dictSet_ne (readDeployments s.yamlFile) chain_id d
      address hd
  · exact dictLookup_dictSet_self (readDeployments s.yamlFile) chain_id
      address

/-- Witness for C10: deploying to 421614 with a prior home-chain entry on
file; the home chain's entry is untouched and 421614's entry is the new
address. -/
theorem deploy_frame_C10_witness :
    dictLookup
        (readDeployments
          (deploy ⟨some [(11155111, "0xDD")], none⟩ 421614
            "0xAB").finalState.yamlFile) 11155111
      = dictLookup (readDeployments (some [(11155111, "0xDD")])) 11155111 ∧
    dictLookup
        (readDeployments
          (deploy ⟨some [(11155111, "0xDD")], none⟩ 421614
            "0xAB").finalState.yamlFile) 421614 = some "0xAB" := by
  have h := deploy_frame_C10 ⟨some [(11155111, "0xDD")], none⟩ 421614 "0xAB"
    "0x6EDCE65403992e310A62460808c4b910D972f10f" rfl
  exact ⟨h.1 11155111 (by decide), h.2⟩

end GasBridger
